import Mathlib

/-!
Verification development for the robotic back-end data pipeline
(`src/main.py`).  The Python source is shallowly embedded: pydantic
models become Lean structures, floating-point sensor values are
modelled as rationals, the random draws and clock readings consumed by
the simulator are passed in explicitly, and the disk is an explicit
state with possibly-failing writes (a failed write is caught and
logged in the source, which the embedding reflects by total
functions).
-/

/-! ### Data models (section "DATA MODELS" of the source) -/

/-- Raw motor reading as delivered by the (simulated) hardware:
`RawMotorData` in the source. -/
structure RawMotorData where
  id : ℤ
  velocity : ℚ
  cm : ℚ
  temperature : ℚ
deriving DecidableEq, Repr

/-- Raw pallet reading: `RawPalletData` in the source. -/
structure RawPalletData where
  id_pallet : ℤ
  timestamp_raw : String
deriving DecidableEq, Repr

/-- Raw gyroscope centroid reading: `RawCentroidData` in the source. -/
structure RawCentroidData where
  centroid_x : ℚ
  centroid_y : ℚ
  centroid_z : ℚ
deriving DecidableEq, Repr

/-- Aggregated raw hardware reading: `RawHardwareData` in the source. -/
structure RawHardwareData where
  motors : List RawMotorData
  pallet : RawPalletData
  centroid : RawCentroidData
deriving DecidableEq, Repr

/-- Processed motor record (public schema): `ProcessedMotor`. -/
structure ProcessedMotor where
  id : ℤ
  velocity : ℚ
  distance : ℚ
  temperature : ℚ
deriving DecidableEq, Repr

/-- Processed pallet record (public schema): `ProcessedPallet`. -/
structure ProcessedPallet where
  id : ℤ
  timestamp : String
deriving DecidableEq, Repr

/-- Nested centroid of the gyroscope: `Centroid`. -/
structure Centroid where
  x : ℚ
  y : ℚ
  z : ℚ
deriving DecidableEq, Repr

/-- Gyroscope wrapper: `Giroscopio`. -/
structure Giroscopio where
  centroid : Centroid
deriving DecidableEq, Repr

/-- Final processed snapshot served by the API: `ProcessedRobotData`. -/
structure ProcessedRobotData where
  motors : List ProcessedMotor
  pallets : List ProcessedPallet
  giroscopio : Giroscopio
deriving DecidableEq, Repr

/-- History entry: `HistoricalRecord` in the source. -/
structure HistoricalRecord where
  timestamp_coleta : String
  data : ProcessedRobotData
deriving DecidableEq, Repr

/-! ### Simulator (`DataSimulator`)

`random.uniform(a, b)` and `random.randint(a, b)` are external random
sources; the embedding receives the drawn values as inputs together
with the guarantee (stated as a hypothesis where needed) that each
draw lies in its requested interval.  `round(x, n)` is Python's
rounding to `n` decimal places, modelled on rationals. -/

/-- Python `round(x, n)`: round to `n` decimal places.  (The tie-breaking
rule is immaterial for every property proved below.) -/
def roundTo (n : ℕ) (x : ℚ) : ℚ := (round (x * 10 ^ n) : ℤ) / 10 ^ n

/-- The external inputs one call to `simulate_hardware_data` consumes:
three uniform draws per motor (indexed by the motor id), one integer
draw and one clock reading for the pallet, and three uniform draws for
the centroid. -/
structure HwDraws where
  vel : ℕ → ℚ
  cm : ℕ → ℚ
  temp : ℕ → ℚ
  palletId : ℤ
  palletNow : String
  cx : ℚ
  cy : ℚ
  cz : ℚ

/-- Contract of the random module for the draws used by the simulator:
every `uniform(a, b)` result lies in `[a, b]` and `randint(1, 100)`
lies in `[1, 100]`. -/
def HwDraws.ok (d : HwDraws) : Prop :=
  (∀ i, 130 ≤ d.vel i ∧ d.vel i ≤ 160) ∧
  (∀ i, 10 ≤ d.cm i ∧ d.cm i ≤ 30) ∧
  (∀ i, 65 ≤ d.temp i ∧ d.temp i ≤ 80) ∧
  (1 ≤ d.palletId ∧ d.palletId ≤ 100) ∧
  (-1 ≤ d.cx ∧ d.cx ≤ 1) ∧ (-1 ≤ d.cy ∧ d.cy ≤ 1) ∧ (-1 ≤ d.cz ∧ d.cz ≤ 1)

/-- `DataSimulator.generate_motor_data`: builds one raw motor reading
from the three uniform draws, each rounded to 1 decimal place. -/
def generate_motor_data (motor_id : ℤ) (uVel uCm uTemp : ℚ) : RawMotorData :=
  { id := motor_id
    velocity := roundTo 1 uVel
    cm := roundTo 1 uCm
    temperature := roundTo 1 uTemp }

/-- `DataSimulator.generate_pallet_data`: one pallet reading from the
integer draw and the current UTC clock reading. -/
def generate_pallet_data (rid : ℤ) (now : String) : RawPalletData :=
  { id_pallet := rid
    timestamp_raw := now }

/-- `DataSimulator.generate_centroid_data`: centroid from three uniform
draws, each rounded to 2 decimal places. -/
def generate_centroid_data (ux uy uz : ℚ) : RawCentroidData :=
  { centroid_x := roundTo 2 ux
    centroid_y := roundTo 2 uy
    centroid_z := roundTo 2 uz }

/-- `DataSimulator.simulate_hardware_data`: motors for ids
`range(1, 4) = [1, 2, 3]`, one pallet, one centroid. -/
def simulate_hardware_data (d : HwDraws) : RawHardwareData :=
  { motors := (List.range' 1 3).map fun (i : ℕ) =>
      generate_motor_data (i : ℤ) (d.vel i) (d.cm i) (d.temp i)
    pallet := generate_pallet_data d.palletId d.palletNow
    centroid := generate_centroid_data d.cx d.cy d.cz }

/-! ### Processor (`DataProcessor`) -/

/-- `DataProcessor.process_motor`: rename `cm` to `distance`, keep the
other fields. -/
def process_motor (raw_motor : RawMotorData) : ProcessedMotor :=
  { id := raw_motor.id
    velocity := raw_motor.velocity
    distance := raw_motor.cm
    temperature := raw_motor.temperature }

/-- `DataProcessor.process_pallet`: rename `id_pallet` to `id` and
`timestamp_raw` to `timestamp`. -/
def process_pallet (raw_pallet : RawPalletData) : ProcessedPallet :=
  { id := raw_pallet.id_pallet
    timestamp := raw_pallet.timestamp_raw }

/-- `DataProcessor.process_centroid`: wrap the three components into
the nested `{centroid: {x, y, z}}` structure. -/
def process_centroid (raw_centroid : RawCentroidData) : Giroscopio :=
  { centroid :=
      { x := raw_centroid.centroid_x
        y := raw_centroid.centroid_y
        z := raw_centroid.centroid_z } }

/-- `DataProcessor.process_hardware_data`: map every motor, wrap the
single pallet in a one-element list, process the centroid. -/
def process_hardware_data (raw_data : RawHardwareData) : ProcessedRobotData :=
  { motors := raw_data.motors.map process_motor
    pallets := [process_pallet raw_data.pallet]
    giroscopio := process_centroid raw_data.centroid }

/-! ### State manager (`DataManager`) and the disk

The manager's in-memory state is `current_data` and `historical_data`.
A persisted file is either absent, or holds bytes that deserialize to
a value, or holds bytes that fail to deserialize (`corrupt`).  A write
to the OS either succeeds or raises; in the source every raise is
caught inside the save helper and logged, so the save helpers are
total here and a failed write leaves the file as it was. -/

/-- The deserializable content of a file that exists on disk. -/
inductive FileContent (α : Type) where
  | good (a : α)
  | corrupt
deriving DecidableEq, Repr

/-- The two persisted files; `none` models a file that does not exist. -/
structure DiskState where
  robot_data : Option (FileContent ProcessedRobotData)
  hist_data : Option (FileContent (List HistoricalRecord))
deriving DecidableEq, Repr

/-- Outcome of one OS-level file write attempt. -/
inductive WriteOutcome where
  | ok
  | fail
deriving DecidableEq, Repr

/-- The in-memory state owned by `DataManager`: `self.current_data`
and `self.historical_data`. -/
structure ManagerState where
  current_data : Option ProcessedRobotData
  historical_data : List HistoricalRecord
deriving DecidableEq, Repr

/-- The state both fields hold right after the assignments at the top
of `DataManager.__init__`. -/
def emptyState : ManagerState :=
  { current_data := none, historical_data := [] }

/-- `DataManager._load_current_from_disk`: if the file exists, try to
deserialize it into `current_data`; any exception is caught and logged,
leaving the state untouched. -/
def _load_current_from_disk (st : ManagerState)
    (f : Option (FileContent ProcessedRobotData)) : ManagerState :=
  match f with
  | none => st
  | some (.good a) => { st with current_data := some a }
  | some .corrupt => st

/-- `DataManager._load_historical_from_disk`: same per-file tolerance
for the history file. -/
def _load_historical_from_disk (st : ManagerState)
    (f : Option (FileContent (List HistoricalRecord))) : ManagerState :=
  match f with
  | none => st
  | some (.good l) => { st with historical_data := l }
  | some .corrupt => st

/-- `DataManager._save_current_to_disk`: early return when there is no
current data; otherwise overwrite the file, catching and logging a
failed write. -/
def _save_current_to_disk (st : ManagerState) (disk : DiskState)
    (w : WriteOutcome) : DiskState :=
  match st.current_data with
  | none => disk
  | some cur =>
    match w with
    | .ok => { disk with robot_data := some (.good cur) }
    | .fail => disk

/-- `DataManager._save_historical_to_disk`: overwrite the history file
with the whole in-memory history, catching and logging a failed
write. -/
def _save_historical_to_disk (st : ManagerState) (disk : DiskState)
    (w : WriteOutcome) : DiskState :=
  match w with
  | .ok => { disk with hist_data := some (.good st.historical_data) }
  | .fail => disk

/-- `DataManager._add_to_historical`: append one `HistoricalRecord`
carrying the clock reading `ts` taken inside this helper. -/
def _add_to_historical (st : ManagerState) (ts : String)
    (data : ProcessedRobotData) : ManagerState :=
  { st with historical_data :=
      st.historical_data ++ [{ timestamp_coleta := ts, data := data }] }

/-- The external inputs one call to `DataManager.update_data` consumes:
the simulator draws, the clock reading taken in `_add_to_historical`,
and the outcomes of the two file writes. -/
structure CycleInput where
  draws : HwDraws
  ts_coleta : String
  wCur : WriteOutcome
  wHist : WriteOutcome

/-- `DataManager.update_data`: simulate, process, replace
`current_data`, append to the history, then persist both files. -/
def update_data (mem : ManagerState) (disk : DiskState)
    (inp : CycleInput) : ManagerState × DiskState :=
  let raw_data := simulate_hardware_data inp.draws
  let processed_data := process_hardware_data raw_data
  let mem1 := { mem with current_data := some processed_data }
  let mem2 := _add_to_historical mem1 inp.ts_coleta processed_data
  let disk1 := _save_current_to_disk mem2 disk inp.wCur
  let disk2 := _save_historical_to_disk mem2 disk1 inp.wHist
  (mem2, disk2)

/-- `DataManager.get_current_data`. -/
def get_current_data (st : ManagerState) : Option ProcessedRobotData :=
  st.current_data

/-- `DataManager.get_historical_data`. -/
def get_historical_data (st : ManagerState) : List HistoricalRecord :=
  st.historical_data

/-- A sequence of calls to `update_data`, one per element of
`inputs`. -/
def runCycles (mem : ManagerState) (disk : DiskState) :
    List CycleInput → ManagerState × DiskState
  | [] => (mem, disk)
  | inp :: rest =>
    let s := update_data mem disk inp
    runCycles s.1 s.2 rest

/-! ### Singleton construction (`DataManager.__new__` / `__init__`)

`DataManager()` first runs `__new__`, which returns the stored class
instance when one exists and otherwise a fresh object with
`_initialized = False`, and then runs `__init__` on that object, which
returns immediately when `_initialized` is already true.  The class
attribute `_instance` is threaded explicitly. -/

/-- One `DataManager` object: `_initialized` (spelled `initDone`
here), the state fields, and the two file paths. -/
structure ManagerObj where
  initDone : Bool
  state : ManagerState
  data_path : String
  hist_data_path : String
deriving DecidableEq, Repr

/-- `DataManager.__new__`: reuse the stored instance, or allocate a
fresh object whose `_initialized` attribute is set to `False` (the
remaining attributes are not yet set; the placeholder values below
stand for the unset slots and are immediately overwritten by
`__init__`). -/
def DataManager_new (inst : Option ManagerObj) : ManagerObj :=
  match inst with
  | some o => o
  | none =>
    { initDone := false
      state := emptyState
      data_path := ""
      hist_data_path := "" }

/-- `DataManager.__init__`: early return when already initialized;
otherwise set the state fields empty, set the two paths, and load both
persisted files. -/
def DataManager_init (o : ManagerObj) (disk : DiskState) : ManagerObj :=
  if o.initDone then o
  else
    let st1 := _load_current_from_disk emptyState disk.robot_data
    let st2 := _load_historical_from_disk st1 disk.hist_data
    { initDone := true
      state := st2
      data_path := "data/robot_data.json"
      hist_data_path := "data/hist_data.json" }

/-- The expression `DataManager()`: `__new__` then `__init__`, with the
class attribute `_instance` updated to the returned object.  Returns
the object together with the new `_instance`. -/
def DataManager_construct (inst : Option ManagerObj) (disk : DiskState) :
    ManagerObj × Option ManagerObj :=
  let o := DataManager_new inst
  let o2 := DataManager_init o disk
  (o2, some o2)

/-! ### HTTP data handler (`get_robot_data`)

The `GET /api/data` handler reads the current data; when it is absent
it synchronously runs one update cycle and re-reads.  The cycle's
external inputs are threaded as for `update_data` (they are only
consumed in the bootstrap branch). -/

/-- The `GET /api/data` handler body: returns the response value and
the manager/disk state after the call. -/
def get_robot_data (mem : ManagerState) (disk : DiskState)
    (inp : CycleInput) : Option ProcessedRobotData × ManagerState × DiskState :=
  match get_current_data mem with
  | some d => (some d, mem, disk)
  | none =>
    let s := update_data mem disk inp
    (get_current_data s.1, s.1, s.2)

/-! ### Background loop (`BackgroundTaskManager.data_update_loop`)

The loop body is `try: update_data(); await sleep(2) except: log;
await sleep(2)`.  Its observable behaviour is modelled as the event
trace of the first `n` iterations, where iteration `k` either
completes the update call or raises (`f k = false` marks a raising
iteration); either way the iteration ends in the same fixed wait. -/

/-- One observable step of the background loop: a call to
`DataManager.update_data` (with `ok = false` when it raised and the
exception was caught and logged), or an `asyncio.sleep`. -/
inductive LoopEvent where
  | runUpdate (ok : Bool)
  | wait (secs : ℕ)
deriving DecidableEq, Repr

/-- The event list of one iteration of the loop body: the update call
(caught if it raises) followed by the fixed 2-second wait taken on
both the success and the exception path. -/
def loop_iteration (ok : Bool) : List LoopEvent :=
  [LoopEvent.runUpdate ok, LoopEvent.wait 2]

/-- `BackgroundTaskManager.data_update_loop`, truncated to its first
`n` iterations: the `while True` loop runs `loop_iteration` forever,
so every finite prefix is `n` iterations in order. -/
def data_update_loop (f : ℕ → Bool) : ℕ → List LoopEvent
  | 0 => []
  | n + 1 => data_update_loop f n ++ loop_iteration (f n)

/-! ### Concrete example inputs (used by witnesses and counterexamples) -/

/-- A disk with neither persisted file present. -/
def emptyDisk : DiskState := { robot_data := none, hist_data := none }

/-- Example simulator draws, well inside every requested interval. -/
def drawsEx : HwDraws :=
  { vel := fun _ => 145
    cm := fun _ => 20
    temp := fun _ => 70
    palletId := 7
    palletNow := "2024-01-01T00:00:00+00:00"
    cx := 0
    cy := 0
    cz := 0 }

/-- Example cycle input with a collection timestamp later than the
pallet timestamp and both writes succeeding. -/
def cycleInputEx : CycleInput :=
  { draws := drawsEx
    ts_coleta := "2024-01-01T00:00:01+00:00"
    wCur := .ok
    wHist := .ok }

/-- Cycle input in which both clock reads return the same instant. -/
def cycleInputSameClock : CycleInput :=
  { draws := drawsEx
    ts_coleta := "2024-01-01T00:00:00+00:00"
    wCur := .ok
    wHist := .ok }

/-- Example raw hardware reading with one motor. -/
def rawEx : RawHardwareData :=
  { motors := [{ id := 1, velocity := 150, cm := 20, temperature := 70 }]
    pallet := { id_pallet := 5, timestamp_raw := "2024-01-01T00:00:00+00:00" }
    centroid := { centroid_x := 0, centroid_y := 1, centroid_z := -1 } }

/-- Example manager state that already holds a snapshot. -/
def memEx : ManagerState :=
  { current_data := some (process_hardware_data (simulate_hardware_data drawsEx))
    historical_data := [] }

/-! ### Helper lemmas about rounding -/

/-- `round` is monotone on the rationals. -/
lemma round_mono_of_le {x y : ℚ} (h : x ≤ y) : round x ≤ round y := by
  rw [round_eq, round_eq]
  exact Int.floor_mono (by linarith)

/-- Rounding to `n` decimal places respects an integer upper bound. -/
lemma roundTo_le_int (n : ℕ) (b : ℤ) {x : ℚ} (h : x ≤ (b : ℚ)) :
    roundTo n x ≤ (b : ℚ) := by
  unfold roundTo
  have hp : (0 : ℚ) < 10 ^ n := by positivity
  rw [div_le_iff₀ hp]
  have h1 : x * 10 ^ n ≤ (b : ℚ) * 10 ^ n :=
    mul_le_mul_of_nonneg_right h (le_of_lt hp)
  have h2 : round ((b : ℚ) * 10 ^ n) = b * 10 ^ n := by
    have hcast : ((b : ℚ) * 10 ^ n) = ((b * 10 ^ n : ℤ) : ℚ) := by push_cast; ring
    rw [hcast, round_intCast]
  have h3 : round (x * 10 ^ n) ≤ b * 10 ^ n := h2 ▸ round_mono_of_le h1
  exact_mod_cast h3

/-- Rounding to `n` decimal places respects an integer lower bound. -/
lemma int_le_roundTo (n : ℕ) (b : ℤ) {x : ℚ} (h : (b : ℚ) ≤ x) :
    (b : ℚ) ≤ roundTo n x := by
  unfold roundTo
  have hp : (0 : ℚ) < 10 ^ n := by positivity
  rw [le_div_iff₀ hp]
  have h1 : (b : ℚ) * 10 ^ n ≤ x * 10 ^ n :=
    mul_le_mul_of_nonneg_right h (le_of_lt hp)
  have h2 : round ((b : ℚ) * 10 ^ n) = b * 10 ^ n := by
    have hcast : ((b : ℚ) * 10 ^ n) = ((b * 10 ^ n : ℤ) : ℚ) := by push_cast; ring
    rw [hcast, round_intCast]
  have h3 : b * 10 ^ n ≤ round (x * 10 ^ n) := h2 ▸ round_mono_of_le h1
  exact_mod_cast h3

/-- `roundTo n x` is an integer multiple of `10 ^ n`'s reciprocal, that
is, a value with at most `n` decimal places. -/
lemma roundTo_decimals (n : ℕ) (x : ℚ) :
    ∃ k : ℤ, roundTo n x = (k : ℚ) / 10 ^ n :=
  ⟨round (x * 10 ^ n), rfl⟩

/-- `roundTo 2 x` has at most 2 decimal places. -/
lemma roundTo_two_decimals (x : ℚ) :
    ∃ k : ℤ, roundTo 2 x = (k : ℚ) / 100 := by
  obtain ⟨k, hk⟩ := roundTo_decimals 2 x
  exact ⟨k, by rw [hk]; norm_num⟩

/-- All the range and decimal-place facts about one generated motor
reading, given in-range uniform draws. -/
lemma generate_motor_data_ok (mid : ℤ) {uVel uCm uTemp : ℚ}
    (hv1 : 130 ≤ uVel) (hv2 : uVel ≤ 160) (hc1 : 10 ≤ uCm) (hc2 : uCm ≤ 30)
    (ht1 : 65 ≤ uTemp) (ht2 : uTemp ≤ 80) :
    (generate_motor_data mid uVel uCm uTemp).id = mid ∧
    (130 ≤ (generate_motor_data mid uVel uCm uTemp).velocity ∧
      (generate_motor_data mid uVel uCm uTemp).velocity ≤ 160 ∧
      ∃ k : ℤ, (generate_motor_data mid uVel uCm uTemp).velocity = (k : ℚ) / 10) ∧
    (10 ≤ (generate_motor_data mid uVel uCm uTemp).cm ∧
      (generate_motor_data mid uVel uCm uTemp).cm ≤ 30 ∧
      ∃ k : ℤ, (generate_motor_data mid uVel uCm uTemp).cm = (k : ℚ) / 10) ∧
    (65 ≤ (generate_motor_data mid uVel uCm uTemp).temperature ∧
      (generate_motor_data mid uVel uCm uTemp).temperature ≤ 80 ∧
      ∃ k : ℤ, (generate_motor_data mid uVel uCm uTemp).temperature = (k : ℚ) / 10) := by
  refine ⟨rfl, ⟨?_, ?_, ?_⟩, ⟨?_, ?_, ?_⟩, ⟨?_, ?_, ?_⟩⟩
  · exact_mod_cast int_le_roundTo 1 130 (by exact_mod_cast hv1)
  · exact_mod_cast roundTo_le_int 1 160 (by exact_mod_cast hv2)
  · simpa using roundTo_decimals 1 uVel
  · exact_mod_cast int_le_roundTo 1 10 (by exact_mod_cast hc1)
  · exact_mod_cast roundTo_le_int 1 30 (by exact_mod_cast hc2)
  · simpa using roundTo_decimals 1 uCm
  · exact_mod_cast int_le_roundTo 1 65 (by exact_mod_cast ht1)
  · exact_mod_cast roundTo_le_int 1 80 (by exact_mod_cast ht2)
  · simpa using roundTo_decimals 1 uTemp

/-! ### Claim theorems -/

/-- C2: `DataProcessor.process_hardware_data` is a pure
renaming/restructuring — each output motor at position `i` keeps `id`,
`velocity` and `temperature`, takes its `distance` from the input's
`cm`, and motor order and count are preserved; the single pallet is
wrapped into a one-element list with `id_pallet` renamed to `id` and
`timestamp_raw` renamed to `timestamp`; the orientation components are
wrapped into the nested `{centroid: {x, y, z}}` structure; no numeric
value is altered anywhere. -/
theorem C2_process_is_pure_renaming (raw_data : RawHardwareData) :
    (process_hardware_data raw_data).motors.length = raw_data.motors.length ∧
    (∀ i (h : i < raw_data.motors.length),
      (process_hardware_data raw_data).motors[i]? =
        some { id := (raw_data.motors.get ⟨i, h⟩).id
               velocity := (raw_data.motors.get ⟨i, h⟩).velocity
               distance := (raw_data.motors.get ⟨i, h⟩).cm
               temperature := (raw_data.motors.get ⟨i, h⟩).temperature }) ∧
    (process_hardware_data raw_data).pallets =
      [{ id := raw_data.pallet.id_pallet
         timestamp := raw_data.pallet.timestamp_raw }] ∧
    (process_hardware_data raw_data).giroscopio =
      { centroid := { x := raw_data.centroid.centroid_x
                      y := raw_data.centroid.centroid_y
                      z := raw_data.centroid.centroid_z } } := by
  refine ⟨by simp [process_hardware_data], ?_, rfl, rfl⟩
  intro i h
  simp [process_hardware_data, List.getElem?_eq_getElem h, process_motor]

/-- Witness for C2: the renaming property evaluated on a concrete raw
reading at index 0. -/
theorem C2_witness :
    (process_hardware_data rawEx).motors[0]? =
      some { id := (rawEx.motors.get ⟨0, by decide⟩).id
             velocity := (rawEx.motors.get ⟨0, by decide⟩).velocity
             distance := (rawEx.motors.get ⟨0, by decide⟩).cm
             temperature := (rawEx.motors.get ⟨0, by decide⟩).temperature } :=
  (C2_process_is_pure_renaming rawEx).2.1 0 (by decide)

/-- C3: every raw reading produced by
`DataSimulator.simulate_hardware_data` (from in-range random draws)
has exactly 3 motor readings with ids 1, 2, 3 in order; each motor's
velocity lies in `[130, 160]`, its `cm` in `[10, 30]`, its temperature
in `[65, 80]`, each with at most 1 decimal place; the pallet id lies in
`[1, 100]`; each orientation component lies in `[-1, 1]` with at most
2 decimal places. -/
theorem C3_simulator_ranges (d : HwDraws) (hok : d.ok) :
    (simulate_hardware_data d).motors.length = 3 ∧
    (∀ i (h : i < (simulate_hardware_data d).motors.length),
      ((simulate_hardware_data d).motors.get ⟨i, h⟩).id = (i : ℤ) + 1 ∧
      (130 ≤ ((simulate_hardware_data d).motors.get ⟨i, h⟩).velocity ∧
        ((simulate_hardware_data d).motors.get ⟨i, h⟩).velocity ≤ 160 ∧
        ∃ k : ℤ, ((simulate_hardware_data d).motors.get ⟨i, h⟩).velocity = (k : ℚ) / 10) ∧
      (10 ≤ ((simulate_hardware_data d).motors.get ⟨i, h⟩).cm ∧
        ((simulate_hardware_data d).motors.get ⟨i, h⟩).cm ≤ 30 ∧
        ∃ k : ℤ, ((simulate_hardware_data d).motors.get ⟨i, h⟩).cm = (k : ℚ) / 10) ∧
      (65 ≤ ((simulate_hardware_data d).motors.get ⟨i, h⟩).temperature ∧
        ((simulate_hardware_data d).motors.get ⟨i, h⟩).temperature ≤ 80 ∧
        ∃ k : ℤ, ((simulate_hardware_data d).motors.get ⟨i, h⟩).temperature = (k : ℚ) / 10)) ∧
    (1 ≤ (simulate_hardware_data d).pallet.id_pallet ∧
      (simulate_hardware_data d).pallet.id_pallet ≤ 100) ∧
    ((-1 ≤ (simulate_hardware_data d).centroid.centroid_x ∧
        (simulate_hardware_data d).centroid.centroid_x ≤ 1 ∧
        ∃ k : ℤ, (simulate_hardware_data d).centroid.centroid_x = (k : ℚ) / 100) ∧
      (-1 ≤ (simulate_hardware_data d).centroid.centroid_y ∧
        (simulate_hardware_data d).centroid.centroid_y ≤ 1 ∧
        ∃ k : ℤ, (simulate_hardware_data d).centroid.centroid_y = (k : ℚ) / 100) ∧
      (-1 ≤ (simulate_hardware_data d).centroid.centroid_z ∧
        (simulate_hardware_data d).centroid.centroid_z ≤ 1 ∧
        ∃ k : ℤ, (simulate_hardware_data d).centroid.centroid_z = (k : ℚ) / 100)) := by
  obtain ⟨hvel, hcm, htemp, hpal, hcx, hcy, hcz⟩ := hok
  have hmlen : (simulate_hardware_data d).motors.length = 3 := by
    simp [simulate_hardware_data]
  refine ⟨hmlen, ?_, hpal, ?_, ?_, ?_⟩
  · intro i h
    have hget : (simulate_hardware_data d).motors.get ⟨i, h⟩ =
        generate_motor_data ((1 + i : ℕ) : ℤ) (d.vel (1 + i)) (d.cm (1 + i))
          (d.temp (1 + i)) := by
      have h3 : i < (List.range' 1 3).length := by simpa using h
      simp [simulate_hardware_data, List.get_eq_getElem, List.getElem_map,
        List.getElem_range'_1 i h3]
    rw [hget]
    have hall := generate_motor_data_ok ((1 + i : ℕ) : ℤ)
      (hvel (1 + i)).1 (hvel (1 + i)).2 (hcm (1 + i)).1 (hcm (1 + i)).2
      (htemp (1 + i)).1 (htemp (1 + i)).2
    refine ⟨?_, hall.2.1, hall.2.2.1, hall.2.2.2⟩
    rw [hall.1]
    push_cast
    ring
  · exact ⟨by simpa using int_le_roundTo 2 (-1) (by exact_mod_cast hcx.1),
      by simpa using roundTo_le_int 2 1 (by exact_mod_cast hcx.2),
      by simpa using roundTo_two_decimals d.cx⟩
  · exact ⟨by simpa using int_le_roundTo 2 (-1) (by exact_mod_cast hcy.1),
      by simpa using roundTo_le_int 2 1 (by exact_mod_cast hcy.2),
      by simpa using roundTo_two_decimals d.cy⟩
  · exact ⟨by simpa using int_le_roundTo 2 (-1) (by exact_mod_cast hcz.1),
      by simpa using roundTo_le_int 2 1 (by exact_mod_cast hcz.2),
      by simpa using roundTo_two_decimals d.cz⟩

/-- Witness for C3: the example draws satisfy the random-module
contract, and the first generated motor has id 1 with its velocity in
range. -/
theorem C3_witness :
    drawsEx.ok ∧
    ((simulate_hardware_data drawsEx).motors.length = 3 ∧
      ((simulate_hardware_data drawsEx).motors.get ⟨0, by decide⟩).id = (0 : ℕ) + 1 ∧
      130 ≤ ((simulate_hardware_data drawsEx).motors.get ⟨0, by decide⟩).velocity) := by
  have hok : drawsEx.ok := by
    refine ⟨fun i => ⟨by norm_num [drawsEx], by norm_num [drawsEx]⟩,
      fun i => ⟨by norm_num [drawsEx], by norm_num [drawsEx]⟩,
      fun i => ⟨by norm_num [drawsEx], by norm_num [drawsEx]⟩,
      ⟨by norm_num [drawsEx], by norm_num [drawsEx]⟩,
      ⟨by norm_num [drawsEx], by norm_num [drawsEx]⟩,
      ⟨by norm_num [drawsEx], by norm_num [drawsEx]⟩,
      ⟨by norm_num [drawsEx], by norm_num [drawsEx]⟩⟩
  have h := C3_simulator_ranges drawsEx hok
  have h0 := h.2.1 0 (by rw [h.1]; norm_num)
  exact ⟨hok, h.1, by simpa using h0.1, h0.2.1.1⟩


/-- The snapshot one cycle with input `inp` produces. -/
def cycleSnapshot (inp : CycleInput) : ProcessedRobotData :=
  process_hardware_data (simulate_hardware_data inp.draws)

/-- The history record one cycle with input `inp` appends. -/
def cycleRecord (inp : CycleInput) : HistoricalRecord :=
  { timestamp_coleta := inp.ts_coleta, data := cycleSnapshot inp }

/-- One `update_data` call replaces `current_data` and appends one
record, independent of the disk and the write outcomes. -/
lemma update_data_mem (mem : ManagerState) (disk : DiskState)
    (inp : CycleInput) :
    (update_data mem disk inp).1 =
      { current_data := some (cycleSnapshot inp)
        historical_data := mem.historical_data ++ [cycleRecord inp] } := rfl

/-- Memory evolution of a run of cycles: the history grows by one
record per cycle, in order, and `current_data` ends as the last
cycle's snapshot. -/
lemma runCycles_mem_spec (inputs : List CycleInput) :
    ∀ (mem : ManagerState) (disk : DiskState),
      (runCycles mem disk inputs).1.historical_data
          = mem.historical_data ++ inputs.map cycleRecord ∧
      (runCycles mem disk inputs).1.current_data
          = (match inputs.getLast? with
             | none => mem.current_data
             | some inp => some (cycleSnapshot inp)) := by
  induction inputs with
  | nil => intro mem disk; simp [runCycles]
  | cons inp rest ih =>
    intro mem disk
    obtain ⟨ih1, ih2⟩ := ih (update_data mem disk inp).1 (update_data mem disk inp).2
    constructor
    · show (runCycles (update_data mem disk inp).1 (update_data mem disk inp).2 rest).1.historical_data = _
      rw [ih1, update_data_mem]
      simp
    · show (runCycles (update_data mem disk inp).1 (update_data mem disk inp).2 rest).1.current_data = _
      rw [ih2, update_data_mem]
      cases rest with
      | nil => simp
      | cons b t =>
        cases hbt : (b :: t).getLast? with
        | none => simp at hbt
        | some x => simp [hbt]

/-- C1: after `N` calls to `DataManager.update_data` starting from the
empty state, the history has exactly `N` records, one per call in call
order, and `current_data` is exactly the snapshot produced by the last
call (full replacement, never a merge); it is absent only before the
first call. -/
theorem C1_cycles_history_and_current (disk : DiskState)
    (inputs : List CycleInput) :
    (runCycles emptyState disk inputs).1.historical_data
        = inputs.map cycleRecord ∧
    (runCycles emptyState disk inputs).1.historical_data.length
        = inputs.length ∧
    (runCycles emptyState disk inputs).1.current_data
        = inputs.getLast?.map cycleSnapshot := by
  obtain ⟨h1, h2⟩ := runCycles_mem_spec inputs emptyState disk
  refine ⟨by simpa [emptyState] using h1, ?_, ?_⟩
  · rw [h1]; simp [emptyState]
  · rw [h2]
    cases hl : inputs.getLast? with
    | none => simp [emptyState]
    | some inp => simp

/-- C4: the `GET /api/data` handler triggers exactly one bootstrap
cycle when `current_data` is absent — it then returns the new snapshot
and the history gains exactly one record — and triggers no cycle at
all (returning the stored snapshot with both states untouched) when a
snapshot is present. -/
theorem C4_handler_bootstrap (mem : ManagerState) (disk : DiskState)
    (inp : CycleInput) :
    (mem.current_data = none →
      (get_robot_data mem disk inp).1 = some (cycleSnapshot inp) ∧
      (get_robot_data mem disk inp).2.1.historical_data
          = mem.historical_data ++ [cycleRecord inp]) ∧
    (∀ d0, mem.current_data = some d0 →
      get_robot_data mem disk inp = (some d0, mem, disk)) := by
  constructor
  · intro h
    constructor
    · simp [get_robot_data, get_current_data, h, update_data_mem,
        cycleSnapshot]
    · simp [get_robot_data, get_current_data, h, update_data_mem]
  · intro d0 h
    simp [get_robot_data, get_current_data, h]

/-- Witness for C4: on the empty state the handler bootstraps — the
response is the fresh snapshot and the history gains one record. -/
theorem C4_witness :
    (get_robot_data emptyState emptyDisk cycleInputEx).1
        = some (cycleSnapshot cycleInputEx) ∧
    (get_robot_data emptyState emptyDisk cycleInputEx).2.1.historical_data
        = [cycleRecord cycleInputEx] := by
  have h := (C4_handler_bootstrap emptyState emptyDisk cycleInputEx).1 rfl
  simpa [emptyState] using h

/-- C5: a persistence failure is absorbed inside the persistence step:
`update_data` is total, the in-memory mutation survives any
combination of write outcomes (current still holds the new snapshot
and the history still ends with the new record), and with both writes
failing the disk is left untouched. -/
theorem C5_persistence_failure_no_rollback (mem : ManagerState)
    (disk : DiskState) (draws : HwDraws) (ts : String)
    (w1 w2 : WriteOutcome) :
    (update_data mem disk
        { draws := draws, ts_coleta := ts, wCur := w1, wHist := w2 }).1
      = { current_data :=
            some (process_hardware_data (simulate_hardware_data draws))
          historical_data := mem.historical_data ++
            [{ timestamp_coleta := ts
               data := process_hardware_data (simulate_hardware_data draws) }] } ∧
    (update_data mem disk
        { draws := draws, ts_coleta := ts, wCur := .fail, wHist := .fail }).2
      = disk := by
  constructor
  · rfl
  · simp [update_data, _save_current_to_disk, _save_historical_to_disk,
      _add_to_historical]

/-- C6: construction of the state store loads the two persisted files
independently and always succeeds — a missing or corrupt current file
leaves `current_data` absent, a missing or corrupt history file leaves
the history empty, and neither file's failure affects the other's
load. -/
theorem C6_construction_load_isolation (disk : DiskState) :
    (DataManager_construct none disk).1.initDone = true ∧
    (DataManager_construct none disk).1.state.current_data
        = (match disk.robot_data with
           | some (.good a) => some a
           | _ => none) ∧
    (DataManager_construct none disk).1.state.historical_data
        = (match disk.hist_data with
           | some (.good l) => l
           | _ => []) := by
  rcases disk with ⟨r, hd⟩
  rcases r with _ | (a | _) <;> rcases hd with _ | (l | _) <;>
    exact ⟨rfl, rfl, rfl⟩

/-- C7: the background loop invokes the update cycle in its very first
event (no leading wait), follows every cycle invocation — succeeding
or raising — by the same fixed 2-second wait, and keeps iterating for
every `n` (it never terminates because one cycle raised: the exception
is caught, logged, and after the wait the next iteration runs another
cycle). -/
theorem C7_loop_schedule_and_retry (f : ℕ → Bool) (n : ℕ) :
    (data_update_loop f n).length = 2 * n ∧
    ∀ k, k < n →
      (data_update_loop f n)[2 * k]? = some (LoopEvent.runUpdate (f k)) ∧
      (data_update_loop f n)[2 * k + 1]? = some (LoopEvent.wait 2) := by
  induction n with
  | zero => exact ⟨rfl, fun k hk => absurd hk (Nat.not_lt_zero k)⟩
  | succ n ih =>
    obtain ⟨ihlen, ihidx⟩ := ih
    have hlen : (data_update_loop f (n + 1)).length = 2 * (n + 1) := by
      simp [data_update_loop, loop_iteration, ihlen]
      ring
    refine ⟨hlen, ?_⟩
    intro k hk
    rcases Nat.lt_succ_iff_lt_or_eq.mp hk with h | h
    · have h1 : 2 * k < (data_update_loop f n).length := by
        rw [ihlen]; omega
      have h2 : 2 * k + 1 < (data_update_loop f n).length := by
        rw [ihlen]; omega
      have e1 : (data_update_loop f (n + 1))[2 * k]?
          = (data_update_loop f n)[2 * k]? := by
        show ((data_update_loop f n) ++ loop_iteration (f n))[2 * k]? = _
        exact List.getElem?_append_left h1
      have e2 : (data_update_loop f (n + 1))[2 * k + 1]?
          = (data_update_loop f n)[2 * k + 1]? := by
        show ((data_update_loop f n) ++ loop_iteration (f n))[2 * k + 1]? = _
        exact List.getElem?_append_left h2
      rw [e1, e2]
      exact ihidx k h
    · subst h
      have h1 : (data_update_loop f k).length ≤ 2 * k := by rw [ihlen]
      have h2 : (data_update_loop f k).length ≤ 2 * k + 1 := by rw [ihlen]; omega
      have e1 : (data_update_loop f (k + 1))[2 * k]?
          = (loop_iteration (f k))[2 * k - (data_update_loop f k).length]? := by
        show ((data_update_loop f k) ++ loop_iteration (f k))[2 * k]? = _
        exact List.getElem?_append_right h1
      have e2 : (data_update_loop f (k + 1))[2 * k + 1]?
          = (loop_iteration (f k))[2 * k + 1 - (data_update_loop f k).length]? := by
        show ((data_update_loop f k) ++ loop_iteration (f k))[2 * k + 1]? = _
        exact List.getElem?_append_right h2
      rw [e1, e2, ihlen]
      constructor
      · simp [loop_iteration]
      · have : 2 * k + 1 - 2 * k = 1 := by omega
        rw [this]
        simp [loop_iteration]

/-- Witness for C7: with every cycle raising, the loop still has a
second iteration — the failing first cycle is followed by the fixed
wait and a retried cycle. -/
theorem C7_witness :
    (data_update_loop (fun _ => false) 2).length = 2 * 2 ∧
    (data_update_loop (fun _ => false) 2)[2 * 1]?
        = some (LoopEvent.runUpdate false) ∧
    (data_update_loop (fun _ => false) 2)[2 * 1 + 1]?
        = some (LoopEvent.wait 2) := by
  have h := C7_loop_schedule_and_retry (fun _ => false) 2
  exact ⟨h.1, (h.2 1 (by norm_num)).1, (h.2 1 (by norm_num)).2⟩

/-- C8: when a snapshot is present, reading the current data is
idempotent and mutation-free — the handler returns the stored snapshot
and leaves the manager state (current and history) and the disk
untouched, so a repeated call with no intervening cycle returns the
same value again. -/
theorem C8_read_idempotent (mem : ManagerState) (disk disk2 : DiskState)
    (inp inp2 : CycleInput) (d0 : ProcessedRobotData)
    (h : mem.current_data = some d0) :
    get_robot_data mem disk inp = (some d0, mem, disk) ∧
    get_robot_data mem disk2 inp2 = (some d0, mem, disk2) := by
  constructor <;> simp [get_robot_data, get_current_data, h]

/-- Witness for C8: two reads on a state holding the example snapshot
both return it and change nothing. -/
theorem C8_witness :
    get_robot_data memEx emptyDisk cycleInputEx
        = (some (process_hardware_data (simulate_hardware_data drawsEx)),
           memEx, emptyDisk) ∧
    get_robot_data memEx emptyDisk cycleInputSameClock
        = (some (process_hardware_data (simulate_hardware_data drawsEx)),
           memEx, emptyDisk) :=
  C8_read_idempotent memEx emptyDisk emptyDisk cycleInputEx
    cycleInputSameClock (process_hardware_data (simulate_hardware_data drawsEx))
    rfl

/-- Counterexample to C9: when the two wall-clock reads of one cycle
return the same instant — nothing in the code prevents this — the
appended record's `timestamp_coleta` equals the pallet's internal
timestamp, so the two are not always distinct. -/
theorem C9_counterexample :
    ((update_data emptyState emptyDisk cycleInputSameClock).1.historical_data.map
        (fun r => (r.timestamp_coleta, r.data.pallets.map ProcessedPallet.timestamp)))
      = [("2024-01-01T00:00:00+00:00", ["2024-01-01T00:00:00+00:00"])] := rfl

/-- C9 as amended: the appended record's `timestamp_coleta` is the
fresh clock reading taken inside `_add_to_historical`, and it differs
from the pallet reading's internal timestamp whenever the two clock
reads differ (the code does not guarantee the reads differ). -/
theorem C9_amended_fresh_timestamp (mem : ManagerState) (disk : DiskState)
    (draws : HwDraws) (ts : String) (w1 w2 : WriteOutcome)
    (h : ts ≠ draws.palletNow) :
    (update_data mem disk
        { draws := draws, ts_coleta := ts, wCur := w1, wHist := w2 }).1.historical_data.getLast?
      = some { timestamp_coleta := ts
               data := process_hardware_data (simulate_hardware_data draws) } ∧
    ∀ p ∈ (process_hardware_data (simulate_hardware_data draws)).pallets,
      ts ≠ p.timestamp := by
  constructor
  · rw [update_data_mem]
    simp [cycleRecord, cycleSnapshot]
  · intro p hp
    simp [process_hardware_data, process_pallet, simulate_hardware_data,
      generate_pallet_data] at hp
    rw [hp]
    exact h

/-- Witness for C9's amended statement: with a collection timestamp
one second after the pallet timestamp, the appended record carries the
collection timestamp and it differs from the pallet's. -/
theorem C9_witness :
    (update_data emptyState emptyDisk cycleInputEx).1.historical_data.getLast?
        = some { timestamp_coleta := "2024-01-01T00:00:01+00:00"
                 data := process_hardware_data (simulate_hardware_data drawsEx) } ∧
    ∀ p ∈ (process_hardware_data (simulate_hardware_data drawsEx)).pallets,
      "2024-01-01T00:00:01+00:00" ≠ p.timestamp := by
  have h := C9_amended_fresh_timestamp emptyState emptyDisk drawsEx
    "2024-01-01T00:00:01+00:00" .ok .ok (by decide)
  exact h

/-- C10: `DataManager()` is idempotent after the first construction —
`__new__` returns the stored instance and the repeated `__init__`
returns early, so the object (its current snapshot, history and file
paths) is returned unchanged and the stored instance stays the same,
whatever the disk now holds. -/
theorem C10_singleton_construction (m : ManagerObj) (d : DiskState)
    (h : m.initDone = true) :
    DataManager_construct (some m) d = (m, some m) := by
  simp [DataManager_construct, DataManager_new, DataManager_init, h]

/-- Witness for C10: constructing once and then constructing again
returns the first object unchanged. -/
theorem C10_witness :
    DataManager_construct (some (DataManager_construct none emptyDisk).1) emptyDisk
      = ((DataManager_construct none emptyDisk).1,
         some (DataManager_construct none emptyDisk).1) :=
  C10_singleton_construction (DataManager_construct none emptyDisk).1 emptyDisk rfl
